import Mathlib

/-!
Verification development for the Yahoo draft WebSocket proxy server
(`src/app.ts`).  The definitions below are a shallow embedding of the
room lifecycle code: JavaScript objects become Lean structures, the
side-effecting methods of `Room` and of the connection acceptor become
pure functions returning the updated state together with the list of
observable effects (frames sent upstream or downstream, socket closes,
dials, and registry deletions) in the order the code performs them.
-/

namespace DraftProxy

/-! ## Model of the JavaScript builtins used by the source -/

/-- Uppercase hexadecimal digit, as produced by `encodeURIComponent`. -/
def hexDigit (n : Nat) : Char :=
  if n < 10 then Char.ofNat (48 + n) else Char.ofNat (55 + n)

/-- Percent-encoding of a single byte: `%XY` with uppercase hex digits. -/
def percentByte (b : Nat) : String :=
  String.mk ['%', hexDigit (b / 16), hexDigit (b % 16)]

/-- UTF-8 byte sequence of one character (as `encodeURIComponent` encodes
non-unreserved characters byte by byte). -/
def utf8Bytes (c : Char) : List Nat :=
  let n := c.toNat
  if n < 128 then [n]
  else if n < 2048 then [192 + n / 64, 128 + n % 64]
  else if n < 65536 then [224 + n / 4096, 128 + (n / 64) % 64, 128 + n % 64]
  else [240 + n / 262144, 128 + (n / 4096) % 64, 128 + (n / 64) % 64, 128 + n % 64]

/-- The characters `encodeURIComponent` leaves unescaped:
`A-Z a-z 0-9 - _ . ! ~ * quote ( )`. -/
def isUriUnreserved (c : Char) : Bool :=
  c.isAlpha || c.isDigit || c = '-' || c = '_' || c = '.' || c = '!' ||
    c = '~' || c = '*' || c.toNat = 39 || c = '(' || c = ')'

/-- Model of JavaScript `encodeURIComponent`. -/
def encodeURIComponent (s : String) : String :=
  s.data.foldl
    (fun acc c =>
      if isUriUnreserved c then acc ++ String.mk [c]
      else acc ++ String.join ((utf8Bytes c).map percentByte))
    ""

/-- Decimal digit value. -/
def digitVal (c : Char) : Option Nat :=
  if c.isDigit then some (c.toNat - 48) else none

/-- Hexadecimal digit value. -/
def hexVal (c : Char) : Option Nat :=
  if c.isDigit then some (c.toNat - 48)
  else if 65 ≤ c.toNat ∧ c.toNat ≤ 70 then some (c.toNat - 55)
  else if 97 ≤ c.toNat ∧ c.toNat ≤ 102 then some (c.toNat - 87)
  else none

/-- Accumulate leading digits in the given base, stopping at the first
non-digit (as `parseInt` does). -/
def parseDigits (f : Char → Option Nat) (base : Nat) : List Char → Nat → Nat
  | [], acc => acc
  | c :: cs, acc =>
    match f c with
    | some d => parseDigits f base cs (acc * base + d)
    | none => acc

/-- `parseInt` needs at least one leading digit, otherwise it returns NaN. -/
def parseDigitsOpt (f : Char → Option Nat) (base : Nat) (cs : List Char) : Option Nat :=
  match cs with
  | [] => none
  | c :: _ =>
    match f c with
    | some _ => some (parseDigits f base cs 0)
    | none => none

/-- JavaScript whitespace skipped by `parseInt`. -/
def isJsWhitespace (c : Char) : Bool :=
  c = ' ' || c = '\t' || c = '\n' || c = '\r'

/-- Model of JavaScript `parseInt(s)` with no radix argument: skip leading
whitespace, optional sign, `0x` prefix selects base 16, otherwise base 10;
`none` models NaN. -/
def parseIntJS (s : String) : Option Int :=
  let cs := s.data.dropWhile isJsWhitespace
  let signAndRest : Int × List Char :=
    match cs with
    | c :: rest =>
      if c.toNat = 45 then (-1, rest)
      else if c.toNat = 43 then (1, rest)
      else (1, cs)
    | [] => (1, [])
  let mag : Option Nat :=
    match signAndRest.2 with
    | c0 :: x :: rest =>
      if c0.toNat = 48 ∧ (x.toNat = 120 ∨ x.toNat = 88) then parseDigitsOpt hexVal 16 rest
      else parseDigitsOpt digitVal 10 signAndRest.2
    | _ => parseDigitsOpt digitVal 10 signAndRest.2
  mag.map (fun m => signAndRest.1 * (m : Int))

/-! ## WebSocket and message types -/

/-- Ready states of a WebSocket, as in the `ws` library. -/
inductive WsReadyState
  | CONNECTING
  | OPEN
  | CLOSING
  | CLOSED
deriving DecidableEq, Repr

/-- The proxy's outbound WebSocket to Yahoo (the `yahooWs` field). -/
structure WebSocketConn where
  url : String
  readyState : WsReadyState
deriving DecidableEq, Repr

/-- Per-client info stored in `Room.clients`. -/
structure CInfo where
  clientId : String
  draftPosition : Int
deriving DecidableEq, Repr

/-- The `ProxyMessage` frames the proxy sends downstream, with exactly the
fields the source populates for each `type` tag. -/
inductive PMsg
  | room_joined (roomId : String) (yahooConnected : Bool) (clientsCount : Nat) (draftPosition : Int)
  | yahoo_connected (message : String)
  | yahoo_message (data : String)
  | yahoo_disconnected (code : Nat) (reason : String)
  | yahoo_error (error : String)
deriving DecidableEq, Repr

/-- Observable effects of the room code, in program order. -/
inductive Eff
  | yahooClose (code : Nat) (reason : String)
  | yahooDial (url : String)
  | yahooSend (frame : String)
  | clientSend (wsId : Nat) (msg : PMsg)
  | downstreamClose (wsId : Nat) (code : Nat) (reason : String)
  | roomsDelete (key : String)
deriving DecidableEq, Repr

/-- `true` when the optional socket is present and open — the test
`this.yahooWs && this.yahooWs.readyState === WebSocket.OPEN` used as a
boolean condition. -/
def linkOpen : Option WebSocketConn → Bool
  | some l => l.readyState = WsReadyState.OPEN
  | none => false

/-- `ws.close(code, reason)`: transitions to CLOSING and emits the close
exactly once; a close on an already closing or closed socket is ignored. -/
def closeLink (l : WebSocketConn) (code : Nat) (reason : String) : WebSocketConn × List Eff :=
  match l.readyState with
  | WsReadyState.CLOSING => (l, [])
  | WsReadyState.CLOSED => (l, [])
  | _ => ({ l with readyState := WsReadyState.CLOSING }, [Eff.yahooClose code reason])

/-! ## The Room -/

/-- The `Room` class state.  `cleanupTimeout` holds the absolute time at
which the pending retirement timer fires (`setTimeout(..., 2000)` at time
`now` stores `now + 2000`); `heartbeatOn` models whether the heartbeat
interval is running. -/
structure Room where
  id : String
  leagueId : String
  draftPosition : Int
  yahooWebSocketUrl : String
  platformUserId : String
  yahooWs : Option WebSocketConn
  clients : List (Nat × CInfo)
  isConnectingToYahoo : Bool
  reconnectAttempts : Nat
  isIntentionalDisconnect : Bool
  hasJoined : Bool
  cleanupTimeout : Option Nat
  heartbeatOn : Bool
deriving DecidableEq, Repr

/-- The `Room` constructor. -/
def mkRoom (leagueId : String) (draftPosition : Int) (yahooWebSocketUrl : String)
    (platformUserId : String) : Room :=
  { id := leagueId
    leagueId := leagueId
    draftPosition := draftPosition
    yahooWebSocketUrl := yahooWebSocketUrl
    platformUserId := platformUserId
    yahooWs := none
    clients := []
    isConnectingToYahoo := false
    reconnectAttempts := 0
    isIntentionalDisconnect := false
    hasJoined := false
    cleanupTimeout := none
    heartbeatOn := false }

/-- `connectToYahoo` (app.ts:97): returns without effect while already
connecting or open; otherwise marks connecting and dials a fresh socket
to `yahooWebSocketUrl`. -/
def Room.connectToYahoo (r : Room) : Room × List Eff :=
  if r.isConnectingToYahoo = true ∨ linkOpen r.yahooWs = true then (r, [])
  else
    ({ r with isConnectingToYahoo := true,
              yahooWs := some { url := r.yahooWebSocketUrl, readyState := WsReadyState.CONNECTING } },
     [Eff.yahooDial r.yahooWebSocketUrl])

/-- The percent-encoded user-agent of the join message (app.ts:184). -/
def joinUserAgent (platformUserId : String) : String :=
  encodeURIComponent ("YahooFantasyProxy/1.0 (" ++ platformUserId ++ ")")

/-- The literal join message `8|leagueId|draftPosition|userAgent|`
(app.ts:185), built from the room's stored parameters. -/
def Room.joinMessage (r : Room) : String :=
  "8|" ++ r.leagueId ++ "|" ++ toString r.draftPosition ++ "|" ++
    joinUserAgent r.platformUserId ++ "|"

/-- `sendJoinMessageToYahoo` (app.ts:180): sends the join message only when
the socket is open and the join has not been sent yet, then records
`hasJoined`. -/
def Room.sendJoinMessageToYahoo (r : Room) : Room × List Eff :=
  if linkOpen r.yahooWs = true ∧ r.hasJoined = false then
    ({ r with hasJoined := true }, [Eff.yahooSend r.joinMessage])
  else (r, [])

/-- `broadcastToClients` (app.ts:328): send the frame to every client in
insertion order whose downstream socket is OPEN; others are skipped.
`wsReady` gives the current ready state of each downstream socket. -/
def Room.broadcastToClients (wsReady : Nat → WsReadyState) (r : Room) (message : PMsg) :
    Room × List Eff :=
  (r, r.clients.filterMap
        (fun c => if wsReady c.1 = WsReadyState.OPEN
                  then some (Eff.clientSend c.1 message) else none))

/-- The `open` handler installed by `connectToYahoo` (app.ts:119): clear
connecting and `reconnectAttempts`, reset `hasJoined`, send the join
message, start the heartbeat, broadcast `yahoo_connected`. -/
def Room.onYahooOpen (wsReady : Nat → WsReadyState) (r : Room) : Room × List Eff :=
  match r.yahooWs with
  | none => (r, [])
  | some l =>
    let r1 : Room := { r with yahooWs := some { l with readyState := WsReadyState.OPEN },
                              isConnectingToYahoo := false,
                              reconnectAttempts := 0,
                              hasJoined := false }
    let sj := r1.sendJoinMessageToYahoo
    let r2 : Room := { sj.1 with heartbeatOn := true }
    (r2, sj.2 ++ (r2.broadcastToClients wsReady (PMsg.yahoo_connected "Connected to Yahoo WebSocket")).2)

/-- The `message` handler (app.ts:136): relay the frame to every client. -/
def Room.onYahooMessage (wsReady : Nat → WsReadyState) (r : Room) (data : String) :
    Room × List Eff :=
  r.broadcastToClients wsReady (PMsg.yahoo_message data)

/-- The `close` handler (app.ts:147): clear connecting, stop the heartbeat,
broadcast `yahoo_disconnected`; no automatic redial. -/
def Room.onYahooClose (wsReady : Nat → WsReadyState) (r : Room) (code : Nat) (reason : String) :
    Room × List Eff :=
  let r1 : Room := { r with isConnectingToYahoo := false, heartbeatOn := false,
                            yahooWs := r.yahooWs.map
                              (fun l => { l with readyState := WsReadyState.CLOSED }) }
  r1.broadcastToClients wsReady (PMsg.yahoo_disconnected code reason)

/-- The `error` handler (app.ts:163): clear connecting and broadcast
`yahoo_error` with the error message. -/
def Room.onYahooError (wsReady : Nat → WsReadyState) (r : Room) (msg : String) :
    Room × List Eff :=
  ({ r with isConnectingToYahoo := false },
   (Room.broadcastToClients wsReady { r with isConnectingToYahoo := false }
      (PMsg.yahoo_error msg)).2)

/-- `Map.set` on `clients`: update in place when the key exists (keeping
insertion order), otherwise append. -/
def setClient (cs : List (Nat × CInfo)) (wsId : Nat) (info : CInfo) : List (Nat × CInfo) :=
  if cs.any (fun c => c.1 = wsId) then
    cs.map (fun c => if c.1 = wsId then (wsId, info) else c)
  else cs ++ [(wsId, info)]

/-- The force-reconnect block of `addClient` (app.ts:264): when any client
exists or the upstream socket is open, mark the existing socket
intentionally disconnected, close it with code 1000 and the literal reason
of the source, drop it, then clear `isIntentionalDisconnect` and reset
`hasJoined`. -/
def Room.forceYahooReinit (r : Room) : Room × List Eff :=
  if 0 < r.clients.length ∨ linkOpen r.yahooWs = true then
    match r.yahooWs with
    | some l =>
      ({ r with isIntentionalDisconnect := false, hasJoined := false, yahooWs := none },
       (closeLink l 1000 "New client joined - forcing reconnection").2)
    | none =>
      ({ r with isIntentionalDisconnect := false, hasJoined := false }, [])
  else (r, [])

/-- The room state of `addClient` after the cleanup-timer cancellation,
the force-reconnect block, and the `clients.set` insertion (app.ts:258-281),
just before `connectToYahoo` is kicked. -/
def Room.addClientInserted (r : Room) (wsId : Nat) (clientId : String)
    (clientDraftPosition : Int) : Room :=
  { ({ r with cleanupTimeout := none } : Room).forceYahooReinit.1 with
    clients := setClient ({ r with cleanupTimeout := none } : Room).forceYahooReinit.1.clients
      wsId { clientId := clientId, draftPosition := clientDraftPosition } }

/-- `addClient` (app.ts:256): cancel any pending cleanup, force the Yahoo
reconnect when needed, insert the client, connect to Yahoo, and send the
new client a `room_joined` frame with `yahooConnected: false`. -/
def Room.addClient (r : Room) (wsId : Nat) (clientId : String) (clientDraftPosition : Int) :
    Room × List Eff :=
  ((r.addClientInserted wsId clientId clientDraftPosition).connectToYahoo.1,
   ({ r with cleanupTimeout := none } : Room).forceYahooReinit.2 ++
     (r.addClientInserted wsId clientId clientDraftPosition).connectToYahoo.2 ++
     [Eff.clientSend wsId
        (PMsg.room_joined (r.addClientInserted wsId clientId clientDraftPosition).id false
          (r.addClientInserted wsId clientId clientDraftPosition).clients.length
          clientDraftPosition)])

/-- `removeClient` (app.ts:301): drop the client; when the room becomes
empty, (re)schedule the cleanup timer two seconds from `now`. -/
def Room.removeClient (r : Room) (now : Nat) (wsId : Nat) : Room × List Eff :=
  if (r.clients.filter (fun c => c.1 ≠ wsId)).length = 0 then
    ({ r with clients := r.clients.filter (fun c => c.1 ≠ wsId),
              cleanupTimeout := some (now + 2000) }, [])
  else
    ({ r with clients := r.clients.filter (fun c => c.1 ≠ wsId) }, [])

/-- `disconnectFromYahoo` (app.ts:346): mark intentional, reset
`hasJoined`, close the socket with code 1000 if present (it is not
dropped here). -/
def Room.disconnectFromYahoo (r : Room) : Room × List Eff :=
  match r.yahooWs with
  | some l =>
    ({ r with isIntentionalDisconnect := true, hasJoined := false,
              yahooWs := some (closeLink l 1000 "No clients remaining in room").1 },
     (closeLink l 1000 "No clients remaining in room").2)
  | none =>
    ({ r with isIntentionalDisconnect := true, hasJoined := false }, [])

/-- `cleanup` (app.ts:356): mark intentional, reset `hasJoined`, stop the
heartbeat, clear the cleanup timer, close and drop the socket, clear the
client set. -/
def Room.cleanup (r : Room) : Room × List Eff :=
  match r.yahooWs with
  | some l =>
    ({ r with isIntentionalDisconnect := true, hasJoined := false, heartbeatOn := false,
              cleanupTimeout := none, yahooWs := none, clients := [] },
     (closeLink l 1000 "Room cleanup").2)
  | none =>
    ({ r with isIntentionalDisconnect := true, hasJoined := false, heartbeatOn := false,
              cleanupTimeout := none, clients := [] }, [])

/-- The body of the retirement timer scheduled by `removeClient`
(app.ts:319): disconnect from Yahoo, clean the room up, and delete the
room from the process-wide registry under its own id. -/
def Room.cleanupTimerFire (r : Room) : Room × List Eff :=
  ((r.disconnectFromYahoo.1.cleanup).1,
   r.disconnectFromYahoo.2 ++ (r.disconnectFromYahoo.1.cleanup).2 ++ [Eff.roomsDelete r.id])

/-- The payload of a `yahoo_reconnect` control message. -/
structure ReconnectData where
  leagueId : String
  draftPosition : Int
deriving DecidableEq, Repr

/-- `handleClientReconnectRequest` (app.ts:204): reject a mismatched
league id; otherwise adopt the requested draft position, close and drop
any existing socket with code 1000 reason `"Client-initiated
reconnection"`, clear the flags, and reconnect. -/
def Room.handleClientReconnectRequest (r : Room) (rd : ReconnectData) :
    Except String (Room × List Eff) :=
  if rd.leagueId ≠ r.leagueId then
    Except.error ("League ID mismatch: expected " ++ r.leagueId ++ ", got " ++ rd.leagueId)
  else
    let r1 : Room :=
      if rd.draftPosition ≠ r.draftPosition then { r with draftPosition := rd.draftPosition } else r
    let closeEffs : List Eff :=
      match r1.yahooWs with
      | some l => (closeLink l 1000 "Client-initiated reconnection").2
      | none => []
    let r3 : Room := { r1 with yahooWs := none, isIntentionalDisconnect := false, hasJoined := false }
    let ct := r3.connectToYahoo
    Except.ok (ct.1, closeEffs ++ ct.2)

/-- The `yahoo_reconnect` branch of the client message handler
(app.ts:549): on failure the requesting client gets a `yahoo_error` frame
and the room is left as it was. -/
def Room.handleReconnectMessage (r : Room) (wsId : Nat) (rd : ReconnectData) :
    Room × List Eff :=
  match r.handleClientReconnectRequest rd with
  | Except.ok res => res
  | Except.error _ =>
    (r, [Eff.clientSend wsId (PMsg.yahoo_error "Failed to reconnect to Yahoo")])

/-- `sendToYahoo` (app.ts:337): forward when open, otherwise warn and drop. -/
def Room.sendToYahoo (r : Room) (message : String) : Room × List Eff :=
  if linkOpen r.yahooWs = true then (r, [Eff.yahooSend message]) else (r, [])

/-- The status snapshot (app.ts:376).  `yahooConnected` models the
JavaScript expression `this.yahooWs && this.yahooWs.readyState ===
WebSocket.OPEN`, whose value is `null` (here `none`) when `yahooWs` is
`null`, and a boolean otherwise. -/
structure RoomStatus where
  roomId : String
  leagueId : String
  draftPosition : Int
  platformUserId : String
  clientsCount : Nat
  clientDraftPositions : List Int
  yahooConnected : Option Bool
  hasJoined : Bool
  reconnectAttempts : Nat
  isIntentionalDisconnect : Bool
deriving DecidableEq, Repr

/-- `getStatus` (app.ts:376). -/
def Room.getStatus (r : Room) : RoomStatus :=
  { roomId := r.id
    leagueId := r.leagueId
    draftPosition := r.draftPosition
    platformUserId := r.platformUserId
    clientsCount := r.clients.length
    clientDraftPositions := r.clients.map (fun c => c.2.draftPosition)
    yahooConnected :=
      match r.yahooWs with
      | none => none
      | some l => some (l.readyState = WsReadyState.OPEN)
    hasJoined := r.hasJoined
    reconnectAttempts := r.reconnectAttempts
    isIntentionalDisconnect := r.isIntentionalDisconnect }

/-! ## The connection acceptor -/

/-- The query parameters of a downstream handshake; `none` models an
absent parameter. -/
structure QueryParams where
  leagueId : Option String
  draftPosition : Option String
  websocketUrl : Option String
  platformUserId : Option String
deriving DecidableEq, Repr

/-- JavaScript falsiness of a nullable string: `null` or the empty string. -/
def strFalsy : Option String → Bool
  | none => true
  | some s => s = ""

/-- JavaScript falsiness of a `parseInt` result: NaN (`none`) or zero. -/
def intFalsy : Option Int → Bool
  | none => true
  | some n => n = 0

/-- The values extracted from an accepted handshake. -/
structure AcceptedConn where
  leagueId : String
  draftPosition : Int
  yahooWebSocketUrl : String
  platformUserId : String
deriving DecidableEq, Repr

/-- `params.get('draftPosition') || '0'`: the raw draft-position string
with the falsy fallback (app.ts:487). -/
def dpRawOf (p : QueryParams) : String :=
  match p.draftPosition with
  | none => "0"
  | some s => if s = "" then "0" else s

/-- `parseInt(params.get('draftPosition') || '0')` (app.ts:487). -/
def draftPositionParsed (p : QueryParams) : Option Int :=
  parseIntJS (dpRawOf p)

/-- `params.get('platformUserId') || 'unknown'` (app.ts:489). -/
def platformUserIdOf (p : QueryParams) : String :=
  match p.platformUserId with
  | none => "unknown"
  | some s => if s = "" then "unknown" else s

/-- The parameter handling of the connection handler (app.ts:486):
`draftPosition` falls back to the string `"0"` when missing or empty,
`platformUserId` falls back to `"unknown"`, and the handshake is rejected
with 1008 when `leagueId`, the parsed `draftPosition`, or `websocketUrl`
is falsy (app.ts:491). -/
def validateConnection (p : QueryParams) : Sum (Nat × String) AcceptedConn :=
  if strFalsy p.leagueId = true ∨ intFalsy (draftPositionParsed p) = true ∨
      strFalsy p.websocketUrl = true then
    Sum.inl (1008, "Missing required parameters: leagueId, draftPosition, websocketUrl")
  else
    Sum.inr { leagueId := (p.leagueId.getD "")
              draftPosition := (draftPositionParsed p).getD 0
              yahooWebSocketUrl := (p.websocketUrl.getD "")
              platformUserId := platformUserIdOf p }

/-! ## The process-wide system: registry, room instances, sessions

JavaScript `Map`s keyed by strings or numbers become association lists
with `Map.set` update-or-append semantics.  Distinct `Room` objects
created over time for the same league are distinguished by an instance
number: `registry` is the `rooms` map (league id to current instance),
`roomTable` holds the state of every instance ever created, and
`sessions` records, per downstream socket, the room instance captured by
its `close` handler closure (app.ts:573). -/

/-- `Map.get`. -/
def assocGet {κ α : Type} [DecidableEq κ] (m : List (κ × α)) (k : κ) : Option α :=
  match m.find? (fun e => e.1 = k) with
  | some e => some e.2
  | none => none

/-- `Map.set`: update in place, or append. -/
def assocSet {κ α : Type} [DecidableEq κ] (m : List (κ × α)) (k : κ) (v : α) : List (κ × α) :=
  if m.any (fun e => e.1 = k) then m.map (fun e => if e.1 = k then (k, v) else e)
  else m ++ [(k, v)]

/-- `Map.delete`. -/
def assocDelete {κ α : Type} [DecidableEq κ] (m : List (κ × α)) (k : κ) : List (κ × α) :=
  m.filter (fun e => e.1 ≠ k)

/-- Process-wide state of the proxy. -/
structure SysState where
  registry : List (String × Nat)
  roomTable : List (Nat × Room)
  sessions : List (Nat × Nat)
  nextInst : Nat
deriving DecidableEq, Repr

/-- The empty process state. -/
def sysInit : SysState := { registry := [], roomTable := [], sessions := [], nextInst := 0 }

/-- The connection handler (app.ts:482): validate the query parameters,
get or create the room for the league (recreating it after a cleanup when
the Yahoo URL changed), add the client, and record the session with the
room instance its close handler captured. -/
def sysConnect (s : SysState) (wsId : Nat) (p : QueryParams) : SysState × List Eff :=
  match validateConnection p with
  | Sum.inl e => (s, [Eff.downstreamClose wsId e.1 e.2])
  | Sum.inr a =>
    match assocGet s.registry a.leagueId with
    | none =>
      let inst := s.nextInst
      let room := mkRoom a.leagueId a.draftPosition a.yahooWebSocketUrl a.platformUserId
      let ac := room.addClient wsId (toString wsId) a.draftPosition
      ({ registry := assocSet s.registry a.leagueId inst
         roomTable := assocSet s.roomTable inst ac.1
         sessions := assocSet s.sessions wsId inst
         nextInst := inst + 1 }, ac.2)
    | some inst0 =>
      match assocGet s.roomTable inst0 with
      | none => (s, [])
      | some room0 =>
        if room0.yahooWebSocketUrl ≠ a.yahooWebSocketUrl then
          let cl := room0.cleanup
          let inst := s.nextInst
          let room := mkRoom a.leagueId a.draftPosition a.yahooWebSocketUrl a.platformUserId
          let ac := room.addClient wsId (toString wsId) a.draftPosition
          ({ registry := assocSet s.registry a.leagueId inst
             roomTable := assocSet (assocSet s.roomTable inst0 cl.1) inst ac.1
             sessions := assocSet s.sessions wsId inst
             nextInst := inst + 1 }, cl.2 ++ ac.2)
        else
          let ac := room0.addClient wsId (toString wsId) a.draftPosition
          ({ s with roomTable := assocSet s.roomTable inst0 ac.1
                    sessions := assocSet s.sessions wsId inst0 }, ac.2)

/-- The downstream `close` handler (app.ts:573): call `removeClient` on
the room instance captured at connect time and drop the session. -/
def sysClientClose (s : SysState) (now : Nat) (wsId : Nat) : SysState :=
  match assocGet s.sessions wsId with
  | none => s
  | some inst =>
    match assocGet s.roomTable inst with
    | none => s
    | some room =>
      { s with roomTable := assocSet s.roomTable inst (room.removeClient now wsId).1
               sessions := assocDelete s.sessions wsId }

/-- Expiry of a room instance's retirement timer: run the timer body;
`rooms.delete(this.id)` removes the registry entry for the instance's
league id, whichever instance that entry currently points to. -/
def sysTimerFire (s : SysState) (inst : Nat) : SysState × List Eff :=
  match assocGet s.roomTable inst with
  | none => (s, [])
  | some room =>
    match room.cleanupTimeout with
    | none => (s, [])
    | some _ =>
      ({ s with roomTable := assocSet s.roomTable inst room.cleanupTimerFire.1
                registry := assocDelete s.registry room.id }, room.cleanupTimerFire.2)

/-! ## Timed lifecycle of one room

A labelled transition system over a single room's client-driven
lifecycle, used to reason about the 2-second retirement grace period.
Time is in milliseconds.  The runtime fires a pending `setTimeout` when
its deadline is reached, so time may not advance past a pending deadline;
the timer fires exactly at its deadline.  `emptySince` is a history
variable recording when the client set last became empty, `retiredAt`
when the retirement timer ran. -/

structure LState where
  room : Room
  now : Nat
  retired : Bool
  emptySince : Option Nat
  retiredAt : Option Nat
deriving DecidableEq, Repr

/-- Events of the client-driven room lifecycle. -/
inductive LEv
  | addC (wsId : Nat) (clientId : String) (pos : Int)
  | remC (wsId : Nat)
  | fire
  | advance (dt : Nat)
deriving DecidableEq, Repr

/-- State after `addClient`. -/
def addCState (s : LState) (w : Nat) (cid : String) (pos : Int) : LState :=
  { room := (s.room.addClient w cid pos).1, now := s.now, retired := false,
    emptySince := none, retiredAt := none }

/-- State after `removeClient`. -/
def remCState (s : LState) (w : Nat) : LState :=
  { room := (s.room.removeClient s.now w).1, now := s.now, retired := false,
    emptySince :=
      if (s.room.removeClient s.now w).1.clients.length = 0 then some s.now else none,
    retiredAt := none }

/-- State after the retirement timer body ran. -/
def fireState (s : LState) : LState :=
  { room := s.room.cleanupTimerFire.1, now := s.now, retired := true,
    emptySince := s.emptySince, retiredAt := some s.now }

/-- State after time passes. -/
def advState (s : LState) (dt : Nat) : LState :=
  { s with now := s.now + dt }

/-- One step of the room lifecycle, labelled with the effects it emits. -/
inductive LStep : LState → LEv → LState → List Eff → Prop
  | addC (s : LState) (w : Nat) (cid : String) (pos : Int)
      (hr : s.retired = false)
      (hw : s.room.clients.any (fun c => c.1 = w) = false) :
      LStep s (LEv.addC w cid pos) (addCState s w cid pos) (s.room.addClient w cid pos).2
  | remC (s : LState) (w : Nat)
      (hr : s.retired = false)
      (hw : s.room.clients.any (fun c => c.1 = w) = true) :
      LStep s (LEv.remC w) (remCState s w) (s.room.removeClient s.now w).2
  | fire (s : LState)
      (hr : s.retired = false)
      (ht : s.room.cleanupTimeout = some s.now) :
      LStep s LEv.fire (fireState s) s.room.cleanupTimerFire.2
  | advance (s : LState) (dt : Nat)
      (hr : s.retired = false)
      (ht : ∀ d, s.room.cleanupTimeout = some d → s.now + dt ≤ d) :
      LStep s (LEv.advance dt) (advState s dt) []

/-- The life of a room starts when the acceptor creates it for its first
client (time 0). -/
def initL (leagueId url userId : String) (w : Nat) (cid : String) (pos : Int) : LState :=
  { room := ((mkRoom leagueId pos url userId).addClient w cid pos).1,
    now := 0, retired := false, emptySince := none, retiredAt := none }

/-- Reachable lifecycle states. -/
inductive ReachL : LState → Prop
  | init (leagueId url userId : String) (w : Nat) (cid : String) (pos : Int) :
      ReachL (initL leagueId url userId w cid pos)
  | step {s s' : LState} {e : LEv} {effs : List Eff} :
      ReachL s → LStep s e s' effs → ReachL s'

/-- Lifecycle invariant: while the room lives, the retirement timer is
pending exactly when the client set is empty, its deadline is two seconds
after the set became empty, and time has not passed the deadline; a
retired room was retired exactly two seconds after it became empty. -/
def INVL (s : LState) : Prop :=
  (s.retired = false ∧ s.room.clients = [] →
     ∃ t0, s.emptySince = some t0 ∧ s.room.cleanupTimeout = some (t0 + 2000) ∧
       t0 ≤ s.now ∧ s.now ≤ t0 + 2000) ∧
  (s.retired = false ∧ s.room.clients ≠ [] →
     s.room.cleanupTimeout = none ∧ s.emptySince = none) ∧
  (s.retired = true →
     ∃ t0, s.emptySince = some t0 ∧ s.retiredAt = some (t0 + 2000))

/-! ## Helper lemmas about the room operations -/

theorem connectToYahoo_clients (r : Room) : r.connectToYahoo.1.clients = r.clients := by
  unfold Room.connectToYahoo; split <;> rfl

theorem connectToYahoo_cleanupTimeout (r : Room) :
    r.connectToYahoo.1.cleanupTimeout = r.cleanupTimeout := by
  unfold Room.connectToYahoo; split <;> rfl

theorem connectToYahoo_id (r : Room) : r.connectToYahoo.1.id = r.id := by
  unfold Room.connectToYahoo; split <;> rfl

theorem connectToYahoo_leagueId (r : Room) : r.connectToYahoo.1.leagueId = r.leagueId := by
  unfold Room.connectToYahoo; split <;> rfl

theorem connectToYahoo_draftPosition (r : Room) :
    r.connectToYahoo.1.draftPosition = r.draftPosition := by
  unfold Room.connectToYahoo; split <;> rfl

theorem connectToYahoo_platformUserId (r : Room) :
    r.connectToYahoo.1.platformUserId = r.platformUserId := by
  unfold Room.connectToYahoo; split <;> rfl

theorem connectToYahoo_effs (r : Room) :
    r.connectToYahoo.2 = [] ∨ r.connectToYahoo.2 = [Eff.yahooDial r.yahooWebSocketUrl] := by
  unfold Room.connectToYahoo; split
  · exact Or.inl rfl
  · exact Or.inr rfl

theorem forceYahooReinit_clients (r : Room) : r.forceYahooReinit.1.clients = r.clients := by
  unfold Room.forceYahooReinit; split
  · split <;> rfl
  · rfl

theorem forceYahooReinit_cleanupTimeout (r : Room) :
    r.forceYahooReinit.1.cleanupTimeout = r.cleanupTimeout := by
  unfold Room.forceYahooReinit; split
  · split <;> rfl
  · rfl

theorem forceYahooReinit_id (r : Room) : r.forceYahooReinit.1.id = r.id := by
  unfold Room.forceYahooReinit; split
  · split <;> rfl
  · rfl

theorem forceYahooReinit_leagueId (r : Room) : r.forceYahooReinit.1.leagueId = r.leagueId := by
  unfold Room.forceYahooReinit; split
  · split <;> rfl
  · rfl

theorem forceYahooReinit_draftPosition (r : Room) :
    r.forceYahooReinit.1.draftPosition = r.draftPosition := by
  unfold Room.forceYahooReinit; split
  · split <;> rfl
  · rfl

theorem forceYahooReinit_platformUserId (r : Room) :
    r.forceYahooReinit.1.platformUserId = r.platformUserId := by
  unfold Room.forceYahooReinit; split
  · split <;> rfl
  · rfl

theorem forceYahooReinit_effs (r : Room) :
    r.forceYahooReinit.2 = [] ∨
    r.forceYahooReinit.2 = [Eff.yahooClose 1000 "New client joined - forcing reconnection"] := by
  unfold Room.forceYahooReinit closeLink; split
  · split
    · split
      · exact Or.inl rfl
      · exact Or.inl rfl
      · exact Or.inr rfl
    · exact Or.inl rfl
  · exact Or.inl rfl

theorem setClient_ne_nil (cs : List (Nat × CInfo)) (w : Nat) (i : CInfo) :
    setClient cs w i ≠ [] := by
  unfold setClient; split
  · intro h
    rename_i hany
    rw [List.map_eq_nil_iff] at h
    subst h
    simp at hany
  · simp

theorem addClient_clients (r : Room) (w : Nat) (cid : String) (pos : Int) :
    (r.addClient w cid pos).1.clients =
      setClient r.clients w { clientId := cid, draftPosition := pos } := by
  show (Room.connectToYahoo _).1.clients = _
  rw [connectToYahoo_clients]
  show setClient (Room.forceYahooReinit _).1.clients w _ = _
  rw [forceYahooReinit_clients]

theorem addClient_clients_ne_nil (r : Room) (w : Nat) (cid : String) (pos : Int) :
    (r.addClient w cid pos).1.clients ≠ [] := by
  rw [addClient_clients]; exact setClient_ne_nil _ _ _

theorem addClient_cleanupTimeout (r : Room) (w : Nat) (cid : String) (pos : Int) :
    (r.addClient w cid pos).1.cleanupTimeout = none := by
  show (Room.connectToYahoo _).1.cleanupTimeout = none
  rw [connectToYahoo_cleanupTimeout]
  show (Room.forceYahooReinit _).1.cleanupTimeout = none
  rw [forceYahooReinit_cleanupTimeout]

theorem addClient_id (r : Room) (w : Nat) (cid : String) (pos : Int) :
    (r.addClient w cid pos).1.id = r.id := by
  show (Room.connectToYahoo _).1.id = r.id
  rw [connectToYahoo_id]
  show (Room.forceYahooReinit _).1.id = r.id
  rw [forceYahooReinit_id]

theorem addClient_leagueId (r : Room) (w : Nat) (cid : String) (pos : Int) :
    (r.addClient w cid pos).1.leagueId = r.leagueId := by
  show (Room.connectToYahoo _).1.leagueId = r.leagueId
  rw [connectToYahoo_leagueId]
  show (Room.forceYahooReinit _).1.leagueId = r.leagueId
  rw [forceYahooReinit_leagueId]

theorem addClient_draftPosition (r : Room) (w : Nat) (cid : String) (pos : Int) :
    (r.addClient w cid pos).1.draftPosition = r.draftPosition := by
  show (Room.connectToYahoo _).1.draftPosition = r.draftPosition
  rw [connectToYahoo_draftPosition]
  show (Room.forceYahooReinit _).1.draftPosition = r.draftPosition
  rw [forceYahooReinit_draftPosition]

theorem addClient_platformUserId (r : Room) (w : Nat) (cid : String) (pos : Int) :
    (r.addClient w cid pos).1.platformUserId = r.platformUserId := by
  show (Room.connectToYahoo _).1.platformUserId = r.platformUserId
  rw [connectToYahoo_platformUserId]
  show (Room.forceYahooReinit _).1.platformUserId = r.platformUserId
  rw [forceYahooReinit_platformUserId]

theorem removeClient_clients (r : Room) (now w : Nat) :
    (r.removeClient now w).1.clients = r.clients.filter (fun c => c.1 ≠ w) := by
  unfold Room.removeClient; split <;> rfl

theorem removeClient_timeout_empty (r : Room) (now w : Nat)
    (h : (r.removeClient now w).1.clients = []) :
    (r.removeClient now w).1.cleanupTimeout = some (now + 2000) := by
  rw [removeClient_clients] at h
  unfold Room.removeClient
  split
  · rfl
  · rename_i hne
    rw [h] at hne
    simp at hne

theorem removeClient_timeout_nonempty (r : Room) (now w : Nat)
    (h : (r.removeClient now w).1.clients ≠ []) :
    (r.removeClient now w).1.cleanupTimeout = r.cleanupTimeout := by
  rw [removeClient_clients] at h
  unfold Room.removeClient
  split
  · rename_i hz
    rw [List.length_eq_zero] at hz
    exact absurd hz h
  · rfl

theorem cleanupTimerFire_cleanupTimeout (r : Room) :
    r.cleanupTimerFire.1.cleanupTimeout = none := by
  unfold Room.cleanupTimerFire Room.cleanup Room.disconnectFromYahoo
  cases r.yahooWs <;> simp

theorem cleanupTimerFire_clients (r : Room) : r.cleanupTimerFire.1.clients = [] := by
  unfold Room.cleanupTimerFire Room.cleanup Room.disconnectFromYahoo
  cases r.yahooWs <;> simp

theorem cleanupTimerFire_heartbeatOn (r : Room) : r.cleanupTimerFire.1.heartbeatOn = false := by
  unfold Room.cleanupTimerFire Room.cleanup Room.disconnectFromYahoo
  cases r.yahooWs <;> simp

theorem cleanupTimerFire_roomsDelete (r : Room) :
    Eff.roomsDelete r.id ∈ r.cleanupTimerFire.2 := by
  unfold Room.cleanupTimerFire
  simp

theorem cleanupTimerFire_closes (r : Room) (l : WebSocketConn)
    (hws : r.yahooWs = some l) (hst : l.readyState = WsReadyState.OPEN) :
    Eff.yahooClose 1000 "No clients remaining in room" ∈ r.cleanupTimerFire.2 := by
  simp [Room.cleanupTimerFire, Room.disconnectFromYahoo, closeLink, hws, hst]

theorem connectToYahoo_hasJoined (r : Room) : r.connectToYahoo.1.hasJoined = r.hasJoined := by
  unfold Room.connectToYahoo; split <;> rfl

theorem connectToYahoo_isIntentionalDisconnect (r : Room) :
    r.connectToYahoo.1.isIntentionalDisconnect = r.isIntentionalDisconnect := by
  unfold Room.connectToYahoo; split <;> rfl

theorem forceYahooReinit_flags (r : Room)
    (h : 0 < r.clients.length ∨ linkOpen r.yahooWs = true) :
    r.forceYahooReinit.1.hasJoined = false ∧
    r.forceYahooReinit.1.isIntentionalDisconnect = false := by
  unfold Room.forceYahooReinit
  rw [if_pos h]
  cases r.yahooWs <;> exact ⟨rfl, rfl⟩

theorem addClient_flags (r : Room) (w : Nat) (cid : String) (pos : Int)
    (h : 0 < r.clients.length ∨ linkOpen r.yahooWs = true) :
    (r.addClient w cid pos).1.hasJoined = false ∧
    (r.addClient w cid pos).1.isIntentionalDisconnect = false := by
  have hf := forceYahooReinit_flags ({ r with cleanupTimeout := none } : Room) h
  constructor
  · show (Room.connectToYahoo _).1.hasJoined = false
    rw [connectToYahoo_hasJoined]
    exact hf.1
  · show (Room.connectToYahoo _).1.isIntentionalDisconnect = false
    rw [connectToYahoo_isIntentionalDisconnect]
    exact hf.2

theorem addClient_effs_shape (r : Room) (w : Nat) (cid : String) (pos : Int) :
    (r.addClient w cid pos).2 =
      ({ r with cleanupTimeout := none } : Room).forceYahooReinit.2 ++
      (r.addClientInserted w cid pos).connectToYahoo.2 ++
      [Eff.clientSend w
        (PMsg.room_joined (r.addClientInserted w cid pos).id false
          (r.addClientInserted w cid pos).clients.length pos)] := rfl

theorem addClient_effs_cases (r : Room) (w : Nat) (cid : String) (pos : Int) :
    ∀ e ∈ (r.addClient w cid pos).2,
      e = Eff.yahooClose 1000 "New client joined - forcing reconnection" ∨
      (∃ u, e = Eff.yahooDial u) ∨ (∃ m, e = Eff.clientSend w m) := by
  intro e he
  rw [addClient_effs_shape] at he
  simp only [List.mem_append, List.mem_singleton] at he
  rcases he with (he | he) | he
  · rcases forceYahooReinit_effs ({ r with cleanupTimeout := none } : Room) with h | h
    · rw [h] at he
      simp at he
    · rw [h] at he
      simp at he
      exact Or.inl he
  · rcases connectToYahoo_effs (r.addClientInserted w cid pos) with h | h
    · rw [h] at he
      simp at he
    · rw [h] at he
      simp at he
      exact Or.inr (Or.inl ⟨_, he⟩)
  · exact Or.inr (Or.inr ⟨_, he⟩)

/-- Recognizes frames sent on the upstream socket. -/
def isYahooSendEff : Eff → Bool
  | Eff.yahooSend _ => true
  | _ => false

theorem broadcast_no_yahooSend (wsReady : Nat → WsReadyState) (r : Room) (m : PMsg) :
    (r.broadcastToClients wsReady m).2.countP isYahooSendEff = 0 := by
  rw [List.countP_eq_zero]
  intro e he
  simp only [Room.broadcastToClients, List.mem_filterMap] at he
  obtain ⟨c, -, hc⟩ := he
  split at hc
  · cases Option.some.inj hc
    simp [isYahooSendEff]
  · exact absurd hc (by simp)

theorem strFalsy_iff (o : Option String) : strFalsy o = true ↔ o = none ∨ o = some "" := by
  cases o <;> simp [strFalsy]

theorem intFalsy_iff (o : Option Int) : intFalsy o = true ↔ o = none ∨ o = some 0 := by
  cases o <;> simp [intFalsy]

theorem strFalsy_false (o : Option String) (h : strFalsy o = false) :
    ∃ s, o = some s ∧ s ≠ "" := by
  cases o
  · simp [strFalsy] at h
  · rename_i s
    exact ⟨s, rfl, by simpa [strFalsy] using h⟩

theorem intFalsy_false (o : Option Int) (h : intFalsy o = false) :
    ∃ n, o = some n ∧ n ≠ 0 := by
  cases o
  · simp [intFalsy] at h
  · rename_i n
    exact ⟨n, rfl, by simpa [intFalsy] using h⟩

theorem invl_init (leagueId url userId : String) (w : Nat) (cid : String) (pos : Int) :
    INVL (initL leagueId url userId w cid pos) := by
  refine ⟨?_, ?_, ?_⟩
  · rintro ⟨-, hc⟩
    exact absurd hc (addClient_clients_ne_nil _ _ _ _)
  · intro _
    exact ⟨addClient_cleanupTimeout _ _ _ _, rfl⟩
  · intro h
    simp [initL] at h

theorem lstep_invl {s s' : LState} {e : LEv} {effs : List Eff}
    (hs : INVL s) (hstep : LStep s e s' effs) : INVL s' := by
  cases hstep with
  | addC w cid pos hr hw =>
    refine ⟨?_, ?_, ?_⟩
    · rintro ⟨-, hc⟩
      exact absurd hc (addClient_clients_ne_nil _ _ _ _)
    · intro _
      exact ⟨addClient_cleanupTimeout _ _ _ _, rfl⟩
    · intro h
      simp [addCState] at h
  | remC w hr hw =>
    have hpre : s.room.clients ≠ [] := by
      intro h0
      rw [h0] at hw
      simp at hw
    obtain ⟨-, h2, -⟩ := hs
    obtain ⟨htimeout, -⟩ := h2 ⟨hr, hpre⟩
    by_cases hc : (s.room.removeClient s.now w).1.clients = []
    · refine ⟨?_, ?_, ?_⟩
      · rintro ⟨-, -⟩
        refine ⟨s.now, ?_, removeClient_timeout_empty _ _ _ hc, le_refl _, Nat.le_add_right _ _⟩
        simp [remCState, List.length_eq_zero, hc]
      · rintro ⟨-, hne⟩
        exact absurd hc hne
      · intro h
        simp [remCState] at h
    · refine ⟨?_, ?_, ?_⟩
      · rintro ⟨-, hcc⟩
        exact absurd hcc hc
      · rintro ⟨-, -⟩
        refine ⟨?_, ?_⟩
        · show (s.room.removeClient s.now w).1.cleanupTimeout = none
          rw [removeClient_timeout_nonempty _ _ _ hc]
          exact htimeout
        · simp [remCState, List.length_eq_zero, hc]
      · intro h
        simp [remCState] at h
  | fire hr ht =>
    obtain ⟨h1, h2, -⟩ := hs
    by_cases hc : s.room.clients = []
    · obtain ⟨t0, hes, htt, -, -⟩ := h1 ⟨hr, hc⟩
      have hnow : s.now = t0 + 2000 := by
        rw [ht] at htt
        exact Option.some.inj htt
      refine ⟨?_, ?_, ?_⟩
      · rintro ⟨hret, -⟩
        simp [fireState] at hret
      · rintro ⟨hret, -⟩
        simp [fireState] at hret
      · intro _
        refine ⟨t0, hes, ?_⟩
        show some s.now = some (t0 + 2000)
        rw [hnow]
    · obtain ⟨hto, -⟩ := h2 ⟨hr, hc⟩
      rw [hto] at ht
      exact absurd ht (by simp)
  | advance dt hr ht =>
    obtain ⟨h1, h2, -⟩ := hs
    refine ⟨?_, ?_, ?_⟩
    · rintro ⟨-, hc⟩
      obtain ⟨t0, hes, htt, hle, -⟩ := h1 ⟨hr, hc⟩
      exact ⟨t0, hes, htt, le_trans hle (Nat.le_add_right _ _), ht _ htt⟩
    · rintro ⟨-, hne⟩
      exact h2 ⟨hr, hne⟩
    · intro h
      simp [advState, hr] at h

theorem reachL_invl (s : LState) (h : ReachL s) : INVL s := by
  induction h with
  | init leagueId url userId w cid pos => exact invl_init leagueId url userId w cid pos
  | step hreach hstep ih => exact lstep_invl ih hstep

/-! ## Claim C1 -/

/-- Downstream ready-state map with every socket open. -/
def allOpen : Nat → WsReadyState := fun _ => WsReadyState.OPEN

/-- Scenario S3, step 0: room created by the acceptor for the first
client (`user-a`, draft position 1). -/
def s3room0 : Room := mkRoom "12345" 1 "wss://u" "user-a"

/-- Scenario S3: first client added. -/
def s3r1 : Room := (s3room0.addClient 1 "client-a" 1).1

/-- Scenario S3: the upstream open event has been delivered. -/
def s3r2 : Room := (s3r1.onYahooOpen allOpen).1

/-- Scenario S3: the second client (`user-b`, draft position 3) joins the
same room through `addClient`; the acceptor passes only the ws, a fresh
client id, and the draft position — `platformUserId=user-b` from the
query string never reaches the existing room. -/
def s3add : Room × List Eff := s3r2.addClient 2 "client-b" 3

/-- Scenario S3: effects of the upstream open event after the forced
reconnection. -/
def s3reopenEffs : List Eff := (s3add.1.onYahooOpen allOpen).2

/-- C1 counterexample: in scenario S3 the close reason emitted by the code
is `"New client joined - forcing reconnection"` (ASCII hyphen), not the
claimed em-dash string, and the join frame sent on the new link carries
draft position 1 and `user-a` — the Room's stored values — while no frame
with the newly joined client's position 3 or `user-b` is ever sent. -/
theorem c1_counterexample :
    s3add.2 = [Eff.yahooClose 1000 "New client joined - forcing reconnection",
               Eff.yahooDial "wss://u",
               Eff.clientSend 2 (PMsg.room_joined "12345" false 2 3)] ∧
    "New client joined - forcing reconnection" ≠
      "New client joined — forcing reconnection" ∧
    s3reopenEffs.head? =
      some (Eff.yahooSend "8|12345|1|YahooFantasyProxy%2F1.0%20(user-a)|") ∧
    Eff.yahooSend "8|12345|3|YahooFantasyProxy%2F1.0%20(user-b)|" ∉ s3reopenEffs := by
  refine ⟨by decide, by decide, by decide, by decide⟩

/-- C1 (amended): when a client joins a Room whose upstream socket is
open, the socket is closed with code 1000 and reason
`"New client joined - forcing reconnection"` and a new socket to the same
URL is dialed; the join frame sent on the new socket carries the Room's
stored `draftPosition` and `platformUserId` (those of the client the Room
was created for), not the newly joined client's. -/
theorem c1_second_client_forces_reinit (r : Room) (wsId : Nat) (cid : String) (pos : Int)
    (l : WebSocketConn) (hws : r.yahooWs = some l) (hopen : l.readyState = WsReadyState.OPEN)
    (hconn : r.isConnectingToYahoo = false) :
    (r.addClient wsId cid pos).2.take 2 =
      [Eff.yahooClose 1000 "New client joined - forcing reconnection",
       Eff.yahooDial r.yahooWebSocketUrl] ∧
    (r.addClient wsId cid pos).1.draftPosition = r.draftPosition ∧
    (r.addClient wsId cid pos).1.platformUserId = r.platformUserId ∧
    ∀ wsReady : Nat → WsReadyState,
      ((r.addClient wsId cid pos).1.onYahooOpen wsReady).2.head? =
        some (Eff.yahooSend ("8|" ++ r.leagueId ++ "|" ++ toString r.draftPosition ++ "|" ++
          joinUserAgent r.platformUserId ++ "|")) := by
  obtain ⟨lu, ls⟩ := l
  subst hopen
  refine ⟨?_, addClient_draftPosition _ _ _ _, addClient_platformUserId _ _ _ _, ?_⟩
  · rw [addClient_effs_shape]
    simp [Room.forceYahooReinit, Room.addClientInserted, Room.connectToYahoo,
          closeLink, linkOpen, hws, hconn]
  · intro wsReady
    simp [Room.addClient, Room.addClientInserted, Room.forceYahooReinit, Room.connectToYahoo,
          Room.onYahooOpen, Room.sendJoinMessageToYahoo, Room.joinMessage,
          Room.broadcastToClients, closeLink, linkOpen, hws, hconn]

/-- C1 witness: the amended theorem applied to the concrete S3 room. -/
theorem c1_second_client_forces_reinit_witness :
    (s3r2.addClient 2 "client-b" 3).2.take 2 =
      [Eff.yahooClose 1000 "New client joined - forcing reconnection",
       Eff.yahooDial s3r2.yahooWebSocketUrl] ∧
    ((s3r2.addClient 2 "client-b" 3).1.onYahooOpen allOpen).2.head? =
      some (Eff.yahooSend ("8|" ++ s3r2.leagueId ++ "|" ++ toString s3r2.draftPosition ++ "|" ++
        joinUserAgent s3r2.platformUserId ++ "|")) := by
  have h := c1_second_client_forces_reinit s3r2 2 "client-b" 3
    { url := "wss://u", readyState := WsReadyState.OPEN } rfl rfl rfl
  exact ⟨h.1, h.2.2.2 allOpen⟩

/-! ## Claim C2 -/

/-- A room with one client and an open upstream link, as a second-client
join finds it. -/
def c2room : Room :=
  { mkRoom "555" 4 "wss://y" "user-z" with
      yahooWs := some { url := "wss://y", readyState := WsReadyState.OPEN },
      clients := [(9, { clientId := "client-x", draftPosition := 4 })] }

/-- C2 counterexample: the close reason the code emits on a forced
re-initialization starts with a capital N and uses an ASCII hyphen; the
claimed string `"new client joined — forcing reconnection"` is never
emitted. -/
theorem c2_counterexample :
    (c2room.addClient 7 "client-z" 2).2.head? =
      some (Eff.yahooClose 1000 "New client joined - forcing reconnection") ∧
    Eff.yahooClose 1000 "new client joined — forcing reconnection" ∉
      (c2room.addClient 7 "client-z" 2).2 ∧
    "New client joined - forcing reconnection" ≠
      "new client joined — forcing reconnection" := by
  refine ⟨by decide, by decide, by decide⟩

/-- C2 (amended): on `addClient` against a Room that has a client or an
open upstream socket, the existing socket (when present and not already
closing or closed) is closed with code 1000 and reason
`"New client joined - forcing reconnection"` as the very first effect —
in particular before any dial — and `hasJoined` and
`isIntentionalDisconnect` are false both in the state handed to the fresh
`connectToYahoo` and in the resulting state. -/
theorem c2_reinit_close_before_dial (r : Room) (wsId : Nat) (cid : String) (pos : Int)
    (h : 0 < r.clients.length ∨ linkOpen r.yahooWs = true) :
    (∀ l, r.yahooWs = some l → l.readyState ≠ WsReadyState.CLOSING →
       l.readyState ≠ WsReadyState.CLOSED →
       (r.addClient wsId cid pos).2.head? =
         some (Eff.yahooClose 1000 "New client joined - forcing reconnection")) ∧
    (r.addClientInserted wsId cid pos).hasJoined = false ∧
    (r.addClientInserted wsId cid pos).isIntentionalDisconnect = false ∧
    (r.addClient wsId cid pos).1.hasJoined = false ∧
    (r.addClient wsId cid pos).1.isIntentionalDisconnect = false := by
  have hf := forceYahooReinit_flags ({ r with cleanupTimeout := none } : Room) h
  refine ⟨?_, hf.1, hf.2, (addClient_flags r wsId cid pos h).1, (addClient_flags r wsId cid pos h).2⟩
  intro l hws h1 h2
  rw [addClient_effs_shape]
  obtain ⟨lu, ls⟩ := l
  rw [hws] at h
  cases ls
  · simp only [linkOpen] at h
    simp at h
    simp [Room.forceYahooReinit, closeLink, hws, h]
  · simp [Room.forceYahooReinit, closeLink, linkOpen, hws]
  · exact absurd rfl h1
  · exact absurd rfl h2

/-- C2 witness: the amended theorem applied to the concrete room with one
client and an open link. -/
theorem c2_reinit_close_before_dial_witness :
    (c2room.addClient 7 "client-z" 2).2.head? =
      some (Eff.yahooClose 1000 "New client joined - forcing reconnection") ∧
    (c2room.addClient 7 "client-z" 2).1.hasJoined = false ∧
    (c2room.addClient 7 "client-z" 2).1.isIntentionalDisconnect = false := by
  have h := c2_reinit_close_before_dial c2room 7 "client-z" 2 (Or.inl (by decide))
  exact ⟨h.1 { url := "wss://y", readyState := WsReadyState.OPEN } rfl (by decide) (by decide),
         h.2.2.2.1, h.2.2.2.2⟩

/-! ## Claim C3 -/

/-- First client of league 777, Yahoo URL `wss://u1`. -/
def c3p1 : QueryParams :=
  { leagueId := some "777", draftPosition := some "1",
    websocketUrl := some "wss://u1", platformUserId := some "user-a" }

/-- Second client of league 777 with a different Yahoo URL `wss://u2`,
which makes the acceptor replace the room instance. -/
def c3p2 : QueryParams :=
  { leagueId := some "777", draftPosition := some "2",
    websocketUrl := some "wss://u2", platformUserId := some "user-b" }

/-- After client ws=1 connected: room instance 0 registered. -/
def c3s1 : SysState := (sysConnect sysInit 1 c3p1).1

/-- After client ws=2 connected with the changed URL: instance 0 cleaned
up, replacement instance 1 registered under "777"; ws=1's close handler
still holds instance 0. -/
def c3s2 : SysState := (sysConnect c3s1 2 c3p2).1

/-- After ws=1 disconnects: `removeClient` runs on the old instance 0,
whose client set is empty, so a retirement timer is scheduled on it. -/
def c3s3 : SysState := sysClientClose c3s2 5000 1

/-- After instance 0's retirement timer fires. -/
def c3s4 : SysState := (sysTimerFire c3s3 0).1

/-- C3 (code bug): before the old instance's timer fires, the Registry
maps "777" to the replacement instance 1, which holds the live session
ws=2; firing instance 0's retirement timer executes
`rooms.delete(this.id)`, which removes the Registry entry for "777" even
though it points at the different instance 1 — leaving instance 1
reachable from a live session but absent from the Registry. -/
theorem c3_registry_divergence :
    assocGet c3s3.registry "777" = some 1 ∧
    assocGet c3s3.sessions 2 = some 1 ∧
    (assocGet c3s3.roomTable 1).map (fun r => r.clients.length) = some 1 ∧
    (assocGet c3s3.roomTable 0).map (fun r => r.cleanupTimeout) = some (some 7000) ∧
    assocGet c3s4.registry "777" = none ∧
    assocGet c3s4.sessions 2 = some 1 ∧
    (assocGet c3s4.roomTable 1).map (fun r => r.clients.length) = some 1 := by
  refine ⟨by decide, by decide, by decide, by decide, by decide, by decide, by decide⟩

/-! ## Claim C4 -/

/-- C4: retirement happens exactly at the two-second mark of continuous
emptiness, and only then.  In every reachable lifecycle state: a retired
room became empty at some `t0` and was retired at `t0 + 2000`; a live
empty room has been empty for at most 2000 ms (so no early retirement);
`removeClient` that empties the room schedules the timer at `now + 2000`;
`addClient` cancels the pending timer, keeps the same room (same
identity), and emits no retirement effect — neither the registry
deletion nor a retirement or cleanup close; the timer body deletes the
room from the registry, clears its timers, and closes an open upstream
socket with code 1000. -/
theorem c4_retirement_grace :
    (∀ s : LState, ReachL s → s.retired = true →
       ∃ t0, s.emptySince = some t0 ∧ s.retiredAt = some (t0 + 2000)) ∧
    (∀ s : LState, ReachL s → s.retired = false → s.room.clients = [] →
       ∃ t0, s.emptySince = some t0 ∧ t0 ≤ s.now ∧ s.now ≤ t0 + 2000) ∧
    (∀ (s : LState) (w : Nat) (s' : LState) (effs : List Eff),
       LStep s (LEv.remC w) s' effs → s'.room.clients = [] →
       s'.room.cleanupTimeout = some (s.now + 2000)) ∧
    (∀ (s : LState) (w : Nat) (cid : String) (pos : Int) (s' : LState) (effs : List Eff),
       LStep s (LEv.addC w cid pos) s' effs →
       s'.room.cleanupTimeout = none ∧ s'.room.id = s.room.id ∧
       s'.room.leagueId = s.room.leagueId ∧
       (∀ e ∈ effs, (∀ k, e ≠ Eff.roomsDelete k) ∧
          e ≠ Eff.yahooClose 1000 "No clients remaining in room" ∧
          e ≠ Eff.yahooClose 1000 "Room cleanup")) ∧
    (∀ (s s' : LState) (effs : List Eff),
       LStep s LEv.fire s' effs →
       Eff.roomsDelete s.room.id ∈ effs ∧ s'.room.cleanupTimeout = none ∧
       s'.room.clients = [] ∧ s'.room.heartbeatOn = false ∧
       (∀ l, s.room.yahooWs = some l → l.readyState = WsReadyState.OPEN →
          Eff.yahooClose 1000 "No clients remaining in room" ∈ effs)) := by
  refine ⟨?_, ?_, ?_, ?_, ?_⟩
  · intro s hreach hret
    exact (reachL_invl s hreach).2.2 hret
  · intro s hreach hret hc
    obtain ⟨t0, hes, -, hle1, hle2⟩ := (reachL_invl s hreach).1 ⟨hret, hc⟩
    exact ⟨t0, hes, hle1, hle2⟩
  · intro s w s' effs hstep hc
    cases hstep
    exact removeClient_timeout_empty _ _ _ hc
  · intro s w cid pos s' effs hstep
    cases hstep
    refine ⟨addClient_cleanupTimeout _ _ _ _, addClient_id _ _ _ _,
            addClient_leagueId _ _ _ _, ?_⟩
    intro e he
    rcases addClient_effs_cases _ _ _ _ e he with hcl | ⟨u, hd⟩ | ⟨m, hm⟩
    · subst hcl
      exact ⟨fun k => by simp, by decide, by decide⟩
    · subst hd
      exact ⟨fun k => by simp, by simp, by simp⟩
    · subst hm
      exact ⟨fun k => by simp, by simp, by simp⟩
  · intro s s' effs hstep
    cases hstep
    refine ⟨cleanupTimerFire_roomsDelete _, cleanupTimerFire_cleanupTimeout _,
            cleanupTimerFire_clients _, cleanupTimerFire_heartbeatOn _, ?_⟩
    intro l hws hst
    exact cleanupTimerFire_closes _ _ hws hst

/-- Concrete lifecycle run: room of league 777 created with one client at
time 0... -/
def c4s0 : LState := initL "777" "wss://u" "user-a" 1 "c1" 1

/-- ...whose only client leaves at time 0, scheduling retirement... -/
def c4s1 : LState := remCState c4s0 1

/-- ...then 2000 ms pass with no arrival... -/
def c4s2 : LState := advState c4s1 2000

/-- ...and the retirement timer fires. -/
def c4s3 : LState := fireState c4s2

theorem c4_run_reach : ReachL c4s3 := by
  have h0 : ReachL c4s0 := ReachL.init "777" "wss://u" "user-a" 1 "c1" 1
  have h1 : ReachL c4s1 := ReachL.step h0 (LStep.remC c4s0 1 rfl (by decide))
  have h2 : ReachL c4s2 := by
    refine ReachL.step h1 (LStep.advance c4s1 2000 rfl ?_)
    intro d hd
    have hd2 : (some 2000 : Option Nat) = some d := hd
    cases hd2
    decide
  exact ReachL.step h2 (LStep.fire c4s2 rfl rfl)

/-- C4 witness: the theorem applied to the concrete run — the room became
empty at time 0 and was retired exactly at time 2000. -/
theorem c4_retirement_grace_witness :
    c4s3.retired = true ∧ c4s3.emptySince = some 0 ∧ c4s3.retiredAt = some (0 + 2000) := by
  obtain ⟨h1, -, -, -, -⟩ := c4_retirement_grace
  obtain ⟨t0, hes, hra⟩ := h1 c4s3 c4_run_reach rfl
  have he0 : c4s3.emptySince = some 0 := rfl
  have ht0 : t0 = 0 := by
    rw [he0] at hes
    exact (Option.some.inj hes).symm
  subst ht0
  exact ⟨rfl, hes, hra⟩

/-! ## Claim C5 -/

/-- C5: the join frame.  For league 12345, draft position 1 and platform
user `user-a` the literal payload is
`8|12345|1|YahooFantasyProxy%2F1.0%20(user-a)|`; `sendJoinMessageToYahoo`
sends exactly that frame when the socket is open and the join is unsent
and then records `hasJoined`, and is a no-op once `hasJoined` is set; an
upstream open event sends exactly one frame on the upstream socket — the
join frame — and leaves `hasJoined` true. -/
theorem c5_join_frame_once :
    (mkRoom "12345" 1 "wss://u" "user-a").joinMessage =
        "8|12345|1|YahooFantasyProxy%2F1.0%20(user-a)|" ∧
    (∀ r : Room, linkOpen r.yahooWs = true → r.hasJoined = false →
       r.sendJoinMessageToYahoo = ({ r with hasJoined := true }, [Eff.yahooSend r.joinMessage])) ∧
    (∀ r : Room, r.hasJoined = true → r.sendJoinMessageToYahoo = (r, [])) ∧
    (∀ (r : Room) (l : WebSocketConn) (wsReady : Nat → WsReadyState), r.yahooWs = some l →
       (r.onYahooOpen wsReady).2.countP isYahooSendEff = 1 ∧
       Eff.yahooSend r.joinMessage ∈ (r.onYahooOpen wsReady).2 ∧
       (r.onYahooOpen wsReady).1.hasJoined = true) := by
  refine ⟨by decide, ?_, ?_, ?_⟩
  · intro r hopen hj
    unfold Room.sendJoinMessageToYahoo
    rw [if_pos ⟨hopen, hj⟩]
  · intro r hj
    unfold Room.sendJoinMessageToYahoo
    rw [if_neg (by simp [hj])]
  · intro r l wsReady hws
    refine ⟨?_, ?_, ?_⟩ <;>
      simp [Room.onYahooOpen, Room.sendJoinMessageToYahoo, Room.joinMessage, linkOpen,
            hws, isYahooSendEff, List.countP_append, List.countP_cons, broadcast_no_yahooSend]

/-- A room with one client whose upstream dial is in flight, about to
receive the open event. -/
def c5room : Room :=
  { mkRoom "12345" 1 "wss://u" "user-a" with
      yahooWs := some { url := "wss://u", readyState := WsReadyState.CONNECTING },
      isConnectingToYahoo := true,
      clients := [(1, { clientId := "client-a", draftPosition := 1 })] }

/-- C5 witness: the theorem applied to the concrete room. -/
theorem c5_join_frame_once_witness :
    (c5room.onYahooOpen allOpen).2.countP isYahooSendEff = 1 ∧
    Eff.yahooSend c5room.joinMessage ∈ (c5room.onYahooOpen allOpen).2 ∧
    (c5room.onYahooOpen allOpen).1.hasJoined = true := by
  obtain ⟨-, -, -, h4⟩ := c5_join_frame_once
  exact h4 c5room { url := "wss://u", readyState := WsReadyState.CONNECTING } allOpen rfl

/-! ## Claim C6 -/

/-- A handshake with a negative draft position. -/
def c6params : QueryParams :=
  { leagueId := some "12345", draftPosition := some "-1",
    websocketUrl := some "wss://u", platformUserId := none }

/-- C6 counterexample: `draftPosition=-1` is not an integer ≥ 1, yet the
handshake is accepted (with draft position -1), because the code only
checks JavaScript truthiness of `parseInt(...)`, which rejects only 0 and
NaN. -/
theorem c6_counterexample :
    validateConnection c6params =
      Sum.inr { leagueId := "12345", draftPosition := -1,
                yahooWebSocketUrl := "wss://u", platformUserId := "unknown" } ∧
    (-1 : Int) < 1 := by
  refine ⟨by decide, by decide⟩

/-- C6 (amended): the handshake is rejected — with close code 1008 and
reason `"Missing required parameters: leagueId, draftPosition,
websocketUrl"` — exactly when `leagueId` is missing or empty,
`websocketUrl` is missing or empty, or `parseInt` of the `draftPosition`
parameter (defaulted to "0" when missing or empty) is NaN or 0; otherwise
the connection is accepted with the parsed — possibly negative — draft
position. -/
theorem c6_handshake_validation (p : QueryParams) :
    (validateConnection p =
        Sum.inl (1008, "Missing required parameters: leagueId, draftPosition, websocketUrl") ↔
      (p.leagueId = none ∨ p.leagueId = some "" ∨ p.websocketUrl = none ∨
       p.websocketUrl = some "" ∨ draftPositionParsed p = none ∨ draftPositionParsed p = some 0)) ∧
    (∀ a, validateConnection p = Sum.inr a →
       p.leagueId = some a.leagueId ∧ a.leagueId ≠ "" ∧
       p.websocketUrl = some a.yahooWebSocketUrl ∧ a.yahooWebSocketUrl ≠ "" ∧
       draftPositionParsed p = some a.draftPosition ∧ a.draftPosition ≠ 0) := by
  constructor
  · unfold validateConnection
    split
    · rename_i hcond
      refine iff_of_true rfl ?_
      rcases hcond with hc | hc | hc
      · rcases (strFalsy_iff _).mp hc with h | h
        · exact Or.inl h
        · exact Or.inr (Or.inl h)
      · rcases (intFalsy_iff _).mp hc with h | h
        · exact Or.inr (Or.inr (Or.inr (Or.inr (Or.inl h))))
        · exact Or.inr (Or.inr (Or.inr (Or.inr (Or.inr h))))
      · rcases (strFalsy_iff _).mp hc with h | h
        · exact Or.inr (Or.inr (Or.inl h))
        · exact Or.inr (Or.inr (Or.inr (Or.inl h)))
    · rename_i hcond
      refine iff_of_false (by simp) ?_
      intro hrhs
      apply hcond
      rcases hrhs with h | h | h | h | h | h
      · exact Or.inl ((strFalsy_iff _).mpr (Or.inl h))
      · exact Or.inl ((strFalsy_iff _).mpr (Or.inr h))
      · exact Or.inr (Or.inr ((strFalsy_iff _).mpr (Or.inl h)))
      · exact Or.inr (Or.inr ((strFalsy_iff _).mpr (Or.inr h)))
      · exact Or.inr (Or.inl ((intFalsy_iff _).mpr (Or.inl h)))
      · exact Or.inr (Or.inl ((intFalsy_iff _).mpr (Or.inr h)))
  · intro a ha
    unfold validateConnection at ha
    split at ha
    · exact absurd ha (by simp)
    · rename_i hcond
      simp only [not_or, Bool.not_eq_true] at hcond
      obtain ⟨hL, hD, hU⟩ := hcond
      obtain ⟨sL, hsL, hneL⟩ := strFalsy_false _ hL
      obtain ⟨sU, hsU, hneU⟩ := strFalsy_false _ hU
      obtain ⟨n, hn, hnne⟩ := intFalsy_false _ hD
      cases Sum.inr.inj ha
      refine ⟨by simp [hsL], by simpa [hsL] using hneL,
              by simp [hsU], by simpa [hsU] using hneU,
              by simp [hn], by simpa [hn] using hnne⟩

/-- C6 witness: the amended theorem applied to the accepted
negative-position handshake. -/
theorem c6_handshake_validation_witness :
    c6params.leagueId = some "12345" ∧ ("12345" : String) ≠ "" ∧
    c6params.websocketUrl = some "wss://u" ∧ ("wss://u" : String) ≠ "" ∧
    draftPositionParsed c6params = some (-1) ∧ (-1 : Int) ≠ 0 := by
  exact (c6_handshake_validation c6params).2
    { leagueId := "12345", draftPosition := -1, yahooWebSocketUrl := "wss://u",
      platformUserId := "unknown" } (by decide)

/-! ## Claim C7 -/

/-- C7: a reconnect request whose `leagueId` differs from the Room's
fails with the league-mismatch error, the Room — upstream socket,
`draftPosition`, `hasJoined` and all — is left exactly as it was, and the
requesting client receives `yahoo_error "Failed to reconnect to Yahoo"`. -/
theorem c7_league_mismatch (r : Room) (wsId : Nat) (rd : ReconnectData)
    (h : rd.leagueId ≠ r.leagueId) :
    r.handleClientReconnectRequest rd =
      Except.error ("League ID mismatch: expected " ++ r.leagueId ++ ", got " ++ rd.leagueId) ∧
    r.handleReconnectMessage wsId rd =
      (r, [Eff.clientSend wsId (PMsg.yahoo_error "Failed to reconnect to Yahoo")]) := by
  have h1 : r.handleClientReconnectRequest rd =
      Except.error ("League ID mismatch: expected " ++ r.leagueId ++ ", got " ++ rd.leagueId) := by
    unfold Room.handleClientReconnectRequest
    rw [if_pos h]
  refine ⟨h1, ?_⟩
  unfold Room.handleReconnectMessage
  rw [h1]

/-- C7 witness: the theorem applied to a concrete room and a reconnect
request for league 99999. -/
theorem c7_league_mismatch_witness :
    Room.handleClientReconnectRequest (mkRoom "12345" 1 "wss://u" "user-a")
        { leagueId := "99999", draftPosition := 1 } =
      Except.error ("League ID mismatch: expected " ++ "12345" ++ ", got " ++ "99999") ∧
    Room.handleReconnectMessage (mkRoom "12345" 1 "wss://u" "user-a") 3
        { leagueId := "99999", draftPosition := 1 } =
      (mkRoom "12345" 1 "wss://u" "user-a",
       [Eff.clientSend 3 (PMsg.yahoo_error "Failed to reconnect to Yahoo")]) :=
  c7_league_mismatch (mkRoom "12345" 1 "wss://u" "user-a") 3
    { leagueId := "99999", draftPosition := 1 } (by decide)

/-! ## Claim C8 -/

/-- C8: a reconnect request with the matching league and a different
draft position updates the Room's `draftPosition` to the requested value,
closes the open socket with code 1000 reason
`"Client-initiated reconnection"`, clears `hasJoined` and
`isIntentionalDisconnect`, dials a new socket, and the join frame the new
socket will carry uses the updated draft position. -/
theorem c8_reconnect_new_position (r : Room) (rd : ReconnectData) (l : WebSocketConn)
    (hleague : rd.leagueId = r.leagueId) (hpos : rd.draftPosition ≠ r.draftPosition)
    (hws : r.yahooWs = some l) (hopen : l.readyState = WsReadyState.OPEN)
    (hconn : r.isConnectingToYahoo = false) :
    (r.handleClientReconnectRequest rd).map
        (fun res => (res.1.draftPosition, res.1.hasJoined, res.1.isIntentionalDisconnect,
                     res.1.yahooWs, res.1.joinMessage, res.2)) =
      Except.ok (rd.draftPosition, false, false,
        some { url := r.yahooWebSocketUrl, readyState := WsReadyState.CONNECTING },
        "8|" ++ r.leagueId ++ "|" ++ toString rd.draftPosition ++ "|" ++
          joinUserAgent r.platformUserId ++ "|",
        [Eff.yahooClose 1000 "Client-initiated reconnection",
         Eff.yahooDial r.yahooWebSocketUrl]) := by
  obtain ⟨lu, ls⟩ := l
  subst hopen
  unfold Room.handleClientReconnectRequest
  rw [if_neg (by simp [hleague])]
  simp [Room.connectToYahoo, Room.joinMessage, closeLink, linkOpen, Except.map,
        hws, hconn, hpos]

/-- A room with an open upstream link and one client, about to receive a
reconnect request. -/
def c8room : Room :=
  { mkRoom "12345" 1 "wss://u" "user-a" with
      yahooWs := some { url := "wss://u", readyState := WsReadyState.OPEN },
      clients := [(1, { clientId := "client-a", draftPosition := 1 })] }

/-- C8 witness: the theorem applied to the concrete room with a request
for draft position 5. -/
theorem c8_reconnect_new_position_witness :
    (c8room.handleClientReconnectRequest { leagueId := "12345", draftPosition := 5 }).map
        (fun res => (res.1.draftPosition, res.1.hasJoined, res.1.isIntentionalDisconnect,
                     res.1.yahooWs, res.1.joinMessage, res.2)) =
      Except.ok ((5 : Int), false, false,
        some { url := "wss://u", readyState := WsReadyState.CONNECTING },
        "8|" ++ "12345" ++ "|" ++ toString (5 : Int) ++ "|" ++ joinUserAgent "user-a" ++ "|",
        [Eff.yahooClose 1000 "Client-initiated reconnection", Eff.yahooDial "wss://u"]) :=
  c8_reconnect_new_position c8room { leagueId := "12345", draftPosition := 5 }
    { url := "wss://u", readyState := WsReadyState.OPEN } rfl (by decide) rfl rfl rfl

/-! ## Claim C9 -/

/-- C9 counterexample: a Room that holds no upstream socket at all —
exactly the situation the claim covers with "including when the Room
holds no Upstream Link" — reports `yahooConnected = null` (modelled
`none`), not the boolean `false`: `this.yahooWs && ...` evaluates to
`null` when `yahooWs` is `null`. -/
theorem c9_counterexample :
    (mkRoom "12345" 1 "wss://u" "user-a").getStatus.yahooConnected = none ∧
    (none : Option Bool) ≠ some false ∧ (none : Option Bool) ≠ some true := by
  refine ⟨by decide, by decide, by decide⟩

/-- C9 (amended): `yahooConnected` is `true` exactly when the Room holds
an upstream socket in the open state and `false` when it holds a socket
in any other state, but when the Room holds no socket at all the field is
`null` (`none`), not `false`. -/
theorem c9_yahooConnected (r : Room) :
    (r.getStatus.yahooConnected = some true ↔
       ∃ l, r.yahooWs = some l ∧ l.readyState = WsReadyState.OPEN) ∧
    (r.yahooWs = none → r.getStatus.yahooConnected = none) ∧
    (∀ l, r.yahooWs = some l → l.readyState ≠ WsReadyState.OPEN →
       r.getStatus.yahooConnected = some false) := by
  refine ⟨?_, ?_, ?_⟩
  · cases hws : r.yahooWs with
    | none => simp [Room.getStatus, hws]
    | some l => simp [Room.getStatus, hws]
  · intro h
    simp [Room.getStatus, h]
  · intro l hws hne
    simp [Room.getStatus, hws, hne]

/-- A room holding a closed upstream socket. -/
def c9closedRoom : Room :=
  { mkRoom "12345" 1 "wss://u" "user-a" with
      yahooWs := some { url := "wss://u", readyState := WsReadyState.CLOSED } }

/-- C9 witness: the amended theorem applied to a socketless room and to a
room with a closed socket. -/
theorem c9_yahooConnected_witness :
    (mkRoom "12345" 1 "wss://u" "user-a").getStatus.yahooConnected = none ∧
    c9closedRoom.getStatus.yahooConnected = some false :=
  ⟨(c9_yahooConnected (mkRoom "12345" 1 "wss://u" "user-a")).2.1 rfl,
   (c9_yahooConnected c9closedRoom).2.2
     { url := "wss://u", readyState := WsReadyState.CLOSED } rfl (by decide)⟩

/-! ## Claim C10 -/

/-- C10: a broadcast sends the frame exactly to those clients whose
downstream socket is OPEN; a client whose socket is in any other state
receives nothing from that broadcast and stays in the client set, and
every frame a broadcast emits goes to some client whose socket is OPEN. -/
theorem c10_broadcast_only_open (r : Room) (m : PMsg) (wsReady : Nat → WsReadyState) :
    (r.broadcastToClients wsReady m).1 = r ∧
    (∀ c ∈ r.clients, wsReady c.1 = WsReadyState.OPEN →
       Eff.clientSend c.1 m ∈ (r.broadcastToClients wsReady m).2) ∧
    (∀ c ∈ r.clients, wsReady c.1 ≠ WsReadyState.OPEN →
       Eff.clientSend c.1 m ∉ (r.broadcastToClients wsReady m).2 ∧
       c ∈ (r.broadcastToClients wsReady m).1.clients) ∧
    (∀ e ∈ (r.broadcastToClients wsReady m).2,
       ∃ c, c ∈ r.clients ∧ e = Eff.clientSend c.1 m ∧ wsReady c.1 = WsReadyState.OPEN) := by
  refine ⟨rfl, ?_, ?_, ?_⟩
  · intro c hc hopen
    simp only [Room.broadcastToClients, List.mem_filterMap]
    exact ⟨c, hc, by rw [if_pos hopen]⟩
  · intro c hc hne
    refine ⟨?_, hc⟩
    intro hmem
    simp only [Room.broadcastToClients, List.mem_filterMap] at hmem
    obtain ⟨c2, hc2, heq⟩ := hmem
    split at heq
    · rename_i hopen2
      have h1 := Option.some.inj heq
      injection h1 with h2 h3
      exact hne (h2 ▸ hopen2)
    · exact absurd heq (by simp)
  · intro e he
    simp only [Room.broadcastToClients, List.mem_filterMap] at he
    obtain ⟨c, hc, heq⟩ := he
    split at heq
    · rename_i hopen
      exact ⟨c, hc, (Option.some.inj heq).symm, hopen⟩
    · exact absurd heq (by simp)

/-- A room with two clients for the broadcast witness. -/
def c10room : Room :=
  { mkRoom "10" 1 "wss://u" "user-x" with
      clients := [(1, { clientId := "a", draftPosition := 1 }),
                  (2, { clientId := "b", draftPosition := 2 })] }

/-- Downstream states: socket 1 open, every other socket closed. -/
def c10ready : Nat → WsReadyState :=
  fun w => if w = 1 then WsReadyState.OPEN else WsReadyState.CLOSED

/-- C10 witness: the theorem applied to the two-client room — the open
client receives the frame, the closed client receives nothing and stays
in the client set. -/
theorem c10_broadcast_only_open_witness :
    Eff.clientSend 1 (PMsg.yahoo_message "hello") ∈
      (c10room.broadcastToClients c10ready (PMsg.yahoo_message "hello")).2 ∧
    Eff.clientSend 2 (PMsg.yahoo_message "hello") ∉
      (c10room.broadcastToClients c10ready (PMsg.yahoo_message "hello")).2 ∧
    (2, { clientId := "b", draftPosition := 2 }) ∈
      (c10room.broadcastToClients c10ready (PMsg.yahoo_message "hello")).1.clients := by
  have h := c10_broadcast_only_open c10room (PMsg.yahoo_message "hello") c10ready
  refine ⟨h.2.1 (1, { clientId := "a", draftPosition := 1 }) (by decide) (by decide),
          (h.2.2.1 (2, { clientId := "b", draftPosition := 2 }) (by decide) (by decide)).1,
          (h.2.2.1 (2, { clientId := "b", draftPosition := 2 }) (by decide) (by decide)).2⟩

end DraftProxy
